import Mathlib

/-!
Shallow embedding of the AI Dungeon Master frontend client
(src/frontend/src): the axios-based API client (services/api.js), the
top-level router and state holder (App.jsx), and the screen components
CharacterCreation.jsx, GameScreen.jsx and CombatView.jsx.

React component state is modelled as explicit records; each event handler
becomes a pure function from the pre-state (and the awaited result of its
HTTP call, `Except ApiError _`) to the post-state together with its
observable effects (route navigated to, callbacks invoked, alerts shown).
The HTTP layer is a parameter `send : Request → Except ApiError (Response α)`
so that the client functions' propagation behaviour is quantified over
every possible server/transport outcome.
-/

/-- Player stats object consumed by the client (spec section 6):
hp, max_hp, mana, max_mana, stamina, max_stamina, level, xp, xp_to_next,
inventory[]. -/
structure PlayerStats where
  hp : Int
  max_hp : Int
  mana : Int
  max_mana : Int
  stamina : Int
  max_stamina : Int
  level : Int
  xp : Int
  xp_to_next : Int
  inventory : List String
  deriving DecidableEq

/-- The game-data object held in `App.gameData` and `GameScreen.gameData`.
It starts as the `/game/start` response object and is updated by
`GameScreen.handleAction`'s spread; `session_id`, `dice_roll` and `outcome`
are `Option` because they are absent on some of the objects stored here
(the start response carries `session_id` but no `dice_roll`/`outcome`;
the spread update adds `dice_roll`/`outcome`). -/
structure GameData where
  session_id : Option String
  current_scene : String
  available_actions : List String
  player_stats : PlayerStats
  dice_roll : Option Int
  outcome : Option String
  deriving DecidableEq

/-- Response of POST /game/start, fields the client consumes. -/
structure StartGameResponse where
  session_id : String
  current_scene : String
  available_actions : List String
  player_stats : PlayerStats
  deriving DecidableEq

/-- Response of POST /game/id/action, fields the client consumes
(`game_over`, `message`, `final_stats`, `current_scene`,
`available_actions`, `player_stats`, `dice_roll`, `outcome`). -/
structure ActionResponse where
  game_over : Bool
  message : String
  final_stats : Option PlayerStats
  current_scene : String
  available_actions : List String
  player_stats : PlayerStats
  dice_roll : Int
  outcome : String
  deriving DecidableEq

/-- Combat player stats as consumed by CombatView. -/
structure CombatPlayerStats where
  hp : Int
  max_hp : Int
  mana : Int
  max_mana : Int
  stamina : Int
  max_stamina : Int
  status_effects : List String
  deriving DecidableEq

/-- An enemy entry of the combat status. -/
structure Enemy where
  name : String
  level : Int
  type : String
  is_boss : Bool
  hp : Int
  max_hp : Int
  status_effects : List String
  deriving DecidableEq

/-- Combat-state snapshot stored in `CombatView.combatData`
(response of GET /game/id/combat/status). -/
structure CombatData where
  in_combat : Bool
  turn_order : List String
  player_stats : CombatPlayerStats
  enemies : List Enemy
  combat_log : List String
  deriving DecidableEq

/-- Rewards object of a victorious combat-action response. -/
structure Rewards where
  xp : Int
  gold : Int
  loot : List String
  leveled_up : Bool
  new_level : Int
  deriving DecidableEq

/-- Response of POST /game/id/combat/action: the end-of-combat flags and
rewards together with the updated combat state. -/
structure CombatActionResponse extends CombatData where
  combat_ended : Bool
  victory : Bool
  defeat : Bool
  fled : Bool
  rewards : Rewards
  deriving DecidableEq

/-- Body of an error response (`err.response.data`), possibly carrying a
`detail` message. -/
structure ErrorBody where
  detail : Option String
  deriving DecidableEq

/-- The HTTP response attached to an axios error. -/
structure ErrorResponse where
  status : Nat
  data : ErrorBody
  deriving DecidableEq

/-- An axios error: `response` is `none` for pure transport failures and
`some _` when the server answered with an error status. -/
structure ApiError where
  response : Option ErrorResponse
  deriving DecidableEq

/-- The `err.response?.data?.detail` optional-chaining read used by the
error handlers. -/
def ApiError.detail (e : ApiError) : Option String :=
  e.response.bind (fun r => r.data.detail)

/-- HTTP method of an apiClient call. -/
inductive Method where
  | get
  | post
  | delete
  deriving DecidableEq

/-- Request bodies built by the gameApi functions, one constructor per
JSON object literal in services/api.js (`empty` for body-less calls). -/
inductive ReqBody where
  | empty
  | startGame (player_name character_class setting : String)
  | action (action : String)
  | attr (attribute_ : String)
  | combatStart (enemy_type : String) (enemy_level enemy_count : Int)
  | combatAction (action_type : String) (target_index : Int)
      (ability_name item_name : Option String)
  deriving DecidableEq

/-- An outbound HTTP request of the apiClient. -/
structure Request where
  method : Method
  path : String
  body : ReqBody
  deriving DecidableEq

/-- An HTTP success response as seen by axios; the client returns `data`. -/
structure Response (α : Type) where
  data : α

namespace gameApi

/-- startGame from services/api.js: POST /game/start with
player_name/character_class/setting; returns response.data, rethrows. -/
def startGame {α : Type} (send : Request → Except ApiError (Response α))
    (playerName characterClass setting : String) : Except ApiError α :=
  match send ⟨.post, "/game/start", .startGame playerName characterClass setting⟩ with
  | .ok response => .ok response.data
  | .error err => .error err

/-- takeAction from services/api.js: POST /game/id/action. -/
def takeAction {α : Type} (send : Request → Except ApiError (Response α))
    (sessionId action : String) : Except ApiError α :=
  match send ⟨.post, "/game/" ++ sessionId ++ "/action", .action action⟩ with
  | .ok response => .ok response.data
  | .error err => .error err

/-- getGameState from services/api.js: GET /game/id. -/
def getGameState {α : Type} (send : Request → Except ApiError (Response α))
    (sessionId : String) : Except ApiError α :=
  match send ⟨.get, "/game/" ++ sessionId, .empty⟩ with
  | .ok response => .ok response.data
  | .error err => .error err

/-- getCharacterSheet from services/api.js: GET /game/id/character. -/
def getCharacterSheet {α : Type} (send : Request → Except ApiError (Response α))
    (sessionId : String) : Except ApiError α :=
  match send ⟨.get, "/game/" ++ sessionId ++ "/character", .empty⟩ with
  | .ok response => .ok response.data
  | .error err => .error err

/-- spendAttributePoint from services/api.js: POST /game/id/attribute. -/
def spendAttributePoint {α : Type} (send : Request → Except ApiError (Response α))
    (sessionId attribute_ : String) : Except ApiError α :=
  match send ⟨.post, "/game/" ++ sessionId ++ "/attribute", .attr attribute_⟩ with
  | .ok response => .ok response.data
  | .error err => .error err

/-- endGame from services/api.js: DELETE /game/id. -/
def endGame {α : Type} (send : Request → Except ApiError (Response α))
    (sessionId : String) : Except ApiError α :=
  match send ⟨.delete, "/game/" ++ sessionId, .empty⟩ with
  | .ok response => .ok response.data
  | .error err => .error err

/-- startCombat from services/api.js: POST /game/id/combat/start. -/
def startCombat {α : Type} (send : Request → Except ApiError (Response α))
    (sessionId : String) (enemyType : String) (enemyLevel enemyCount : Int) :
    Except ApiError α :=
  match send ⟨.post, "/game/" ++ sessionId ++ "/combat/start",
      .combatStart enemyType enemyLevel enemyCount⟩ with
  | .ok response => .ok response.data
  | .error err => .error err

/-- performCombatAction from services/api.js: POST /game/id/combat/action. -/
def performCombatAction {α : Type} (send : Request → Except ApiError (Response α))
    (sessionId actionType : String) (targetIndex : Int)
    (abilityName itemName : Option String) : Except ApiError α :=
  match send ⟨.post, "/game/" ++ sessionId ++ "/combat/action",
      .combatAction actionType targetIndex abilityName itemName⟩ with
  | .ok response => .ok response.data
  | .error err => .error err

/-- getCombatStatus from services/api.js: GET /game/id/combat/status. -/
def getCombatStatus {α : Type} (send : Request → Except ApiError (Response α))
    (sessionId : String) : Except ApiError α :=
  match send ⟨.get, "/game/" ++ sessionId ++ "/combat/status", .empty⟩ with
  | .ok response => .ok response.data
  | .error err => .error err

/-- endCombat from services/api.js: POST /game/id/combat/end. -/
def endCombat {α : Type} (send : Request → Except ApiError (Response α))
    (sessionId : String) : Except ApiError α :=
  match send ⟨.post, "/game/" ++ sessionId ++ "/combat/end", .empty⟩ with
  | .ok response => .ok response.data
  | .error err => .error err

/-- The request startGame sends (spelled out for the interface claims). -/
def startGameRequest (playerName characterClass setting : String) : Request :=
  ⟨.post, "/game/start", .startGame playerName characterClass setting⟩

/-- The request takeAction sends. -/
def takeActionRequest (sessionId action : String) : Request :=
  ⟨.post, "/game/" ++ sessionId ++ "/action", .action action⟩

/-- The request getGameState sends. -/
def getGameStateRequest (sessionId : String) : Request :=
  ⟨.get, "/game/" ++ sessionId, .empty⟩

/-- The request getCharacterSheet sends. -/
def getCharacterSheetRequest (sessionId : String) : Request :=
  ⟨.get, "/game/" ++ sessionId ++ "/character", .empty⟩

/-- The request spendAttributePoint sends. -/
def spendAttributePointRequest (sessionId attribute_ : String) : Request :=
  ⟨.post, "/game/" ++ sessionId ++ "/attribute", .attr attribute_⟩

/-- The request endGame sends. -/
def endGameRequest (sessionId : String) : Request :=
  ⟨.delete, "/game/" ++ sessionId, .empty⟩

/-- The request startCombat sends. -/
def startCombatRequest (sessionId enemyType : String)
    (enemyLevel enemyCount : Int) : Request :=
  ⟨.post, "/game/" ++ sessionId ++ "/combat/start",
    .combatStart enemyType enemyLevel enemyCount⟩

/-- The request performCombatAction sends. -/
def performCombatActionRequest (sessionId actionType : String)
    (targetIndex : Int) (abilityName itemName : Option String) : Request :=
  ⟨.post, "/game/" ++ sessionId ++ "/combat/action",
    .combatAction actionType targetIndex abilityName itemName⟩

/-- The request getCombatStatus sends. -/
def getCombatStatusRequest (sessionId : String) : Request :=
  ⟨.get, "/game/" ++ sessionId ++ "/combat/status", .empty⟩

/-- The request endCombat sends. -/
def endCombatRequest (sessionId : String) : Request :=
  ⟨.post, "/game/" ++ sessionId ++ "/combat/end", .empty⟩

end gameApi

/-- The error object stored in App state (`setError` in App.jsx receives an
object with a `message`). -/
structure AppError where
  message : String
  deriving DecidableEq

/-- Top-level component state of App.jsx: the six useState hooks. -/
structure AppState where
  gameStarted : Bool
  sessionId : Option String
  gameData : Option GameData
  isLoading : Bool
  error : Option AppError
  inCombat : Bool
  deriving DecidableEq

/-- The initial App state: all hooks at their useState initial values. -/
def initialAppState : AppState :=
  { gameStarted := false, sessionId := none, gameData := none,
    isLoading := false, error := none, inCombat := false }

/-- The `/game/start` response object as stored by `setGameData(response)`:
all response fields, with `dice_roll`/`outcome` absent. -/
def GameData.ofStartResponse (r : StartGameResponse) : GameData :=
  { session_id := some r.session_id, current_scene := r.current_scene,
    available_actions := r.available_actions, player_stats := r.player_stats,
    dice_roll := none, outcome := none }

/-- Routes of the Router in App.jsx. -/
inductive Route where
  | root
  | createCharacter
  | game
  | combat
  | other (path : String)
  deriving DecidableEq

/-- What a route element renders: a screen component (with the props App
passes it) or a `Navigate` redirect. -/
inductive Screen where
  | landing
  | loading (message : String)
  | errorScreen (error : AppError)
  | characterCreation
  | game (sessionId : Option String) (initialGameData : Option GameData)
  | combat (sessionId : Option String)
  | navigate (path : String)
  deriving DecidableEq

namespace App

/-- handleStartGame from App.jsx, given the awaited result of
`gameApi.startGame`: sets isLoading and clears error up front; on success
stores `session_id`, the response as gameData, and sets gameStarted; on
failure stores the detail message (or the connection fallback) as the
error; `finally` clears isLoading. -/
def handleStartGame (s : AppState) (result : Except ApiError StartGameResponse) :
    AppState :=
  match result with
  | .ok response =>
      { s with sessionId := some response.session_id,
               gameData := some (GameData.ofStartResponse response),
               gameStarted := true,
               error := none,
               isLoading := false }
  | .error err =>
      { s with
        error := some { message := (err.detail).getD "Failed to connect to game server. Make sure your backend is running on http://localhost:8000" },
        isLoading := false }

/-- handleRetry from App.jsx: clears error and resets the whole session
state to the pre-game phase. -/
def handleRetry (s : AppState) : AppState :=
  { s with error := none, gameStarted := false, sessionId := none,
           gameData := none, inCombat := false }

/-- handleCombatStart from App.jsx. -/
def handleCombatStart (s : AppState) : AppState :=
  { s with inCombat := true }

/-- handleCombatEnd from App.jsx. -/
def handleCombatEnd (s : AppState) : AppState :=
  { s with inCombat := false }

/-- The route table of App.jsx: what each route renders in state `s`. -/
def renderRoute (s : AppState) : Route → Screen
  | .root => .landing
  | .createCharacter =>
      if s.isLoading then .loading "Creating your adventure..."
      else
        match s.error with
        | some e => .errorScreen e
        | none =>
            if s.gameStarted then .navigate "/game"
            else .characterCreation
  | .game =>
      if !s.gameStarted || s.sessionId.isNone then .navigate "/create-character"
      else if s.inCombat then .navigate "/combat"
      else .game s.sessionId s.gameData
  | .combat =>
      if !s.gameStarted || s.sessionId.isNone then .navigate "/create-character"
      else if !s.inCombat then .navigate "/game"
      else .combat s.sessionId
  | .other _ => .navigate "/"

end App

/-- The payload CharacterCreation.handleSubmit passes to `onStartGame`. -/
structure CharacterData where
  playerName : String
  characterClass : String
  setting : String
  deriving DecidableEq

/-- The JavaScript `String.prototype.trim()`: drops leading and trailing
whitespace characters (executable over the character list of the string).  -/
def jsTrim (s : String) : String :=
  ⟨((s.data.dropWhile Char.isWhitespace).reverse.dropWhile Char.isWhitespace).reverse⟩

namespace CharacterCreation

/-- handleSubmit from CharacterCreation.jsx: calls `onStartGame` with the
trimmed name exactly when the trimmed name is non-empty (JS truthiness of
`playerName.trim()`); returns the payload passed to `onStartGame`, `none`
when `onStartGame` is not invoked. -/
def handleSubmit (playerName characterClass setting : String) :
    Option CharacterData :=
  if jsTrim playerName ≠ "" then
    some { playerName := jsTrim playerName,
           characterClass := characterClass,
           setting := setting }
  else none

/-- The submit button's `disabled` prop: `!playerName.trim()`. -/
def submitDisabled (playerName : String) : Bool :=
  jsTrim playerName == ""

end CharacterCreation

/-- Local component state of GameScreen.jsx (`gameData` is non-null here:
the game route only mounts GameScreen with the App gameData set). -/
structure GameScreenState where
  gameData : GameData
  isLoading : Bool
  error : Option String
  deriving DecidableEq

/-- Result of one run of GameScreen.handleAction: the post state, the route
navigated to (if any), and whether the game-over alert was shown. -/
structure ActionOutcome where
  state : GameScreenState
  navigatedTo : Option String
  alerted : Bool
  deriving DecidableEq

namespace GameScreen

/-- handleAction from GameScreen.jsx, given the awaited result of
`gameApi.takeAction`: on `game_over` it alerts and navigates to the landing
route without touching gameData; otherwise it spreads the response's scene,
actions, stats, dice_roll and outcome into gameData; on error it stores the
detail message (or the fallback) inline; `finally` clears isLoading. -/
def handleAction (s : GameScreenState) (result : Except ApiError ActionResponse) :
    ActionOutcome :=
  match result with
  | .ok response =>
      if response.game_over then
        { state := { s with error := none, isLoading := false },
          navigatedTo := some "/",
          alerted := true }
      else
        { state := { s with
            gameData := { s.gameData with
              current_scene := response.current_scene,
              available_actions := response.available_actions,
              player_stats := response.player_stats,
              dice_roll := some response.dice_roll,
              outcome := some response.outcome },
            error := none,
            isLoading := false },
          navigatedTo := none,
          alerted := false }
  | .error err =>
      { state := { s with
          error := some ((err.detail).getD "Failed to process action"),
          isLoading := false },
        navigatedTo := none,
        alerted := false }

end GameScreen

/-- Local component state of CombatView.jsx. -/
structure CombatViewState where
  combatData : Option CombatData
  isLoading : Bool
  actionLoading : Bool
  selectedTarget : Nat
  selectedAbility : Option String
  error : Option String
  damageAnim : Option (Nat × String)
  deriving DecidableEq

/-- Result of one run of CombatView.handleCombatAction: the post state,
whether `onCombatEnd` was invoked, and whether an end-of-combat alert was
shown. -/
structure CombatOutcome where
  state : CombatViewState
  onCombatEndCalled : Bool
  alerted : Bool
  deriving DecidableEq

namespace CombatView

/-- handleCombatAction from CombatView.jsx, given the awaited result of
`gameApi.performCombatAction`: clears error up front; on success it first
shows the damage animation for attack/ability actions, then on
`combat_ended` with victory, defeat or fled it alerts and calls
`onCombatEnd` and returns early (combatData is not updated); on
`combat_ended` with none of the three flags it just returns early;
otherwise it stores the response as the new combatData and resets the
ability selection; on error it stores the detail message (or the fallback)
inline; `finally` clears actionLoading. -/
def handleCombatAction (s : CombatViewState) (actionType : String)
    (result : Except ApiError CombatActionResponse) : CombatOutcome :=
  match result with
  | .ok response =>
      let s1 : CombatViewState :=
        if actionType == "attack" || actionType == "ability" then
          { s with error := none,
                   damageAnim := some (s.selectedTarget, actionType) }
        else { s with error := none }
      if response.combat_ended then
        if response.victory then
          { state := { s1 with actionLoading := false },
            onCombatEndCalled := true, alerted := true }
        else if response.defeat then
          { state := { s1 with actionLoading := false },
            onCombatEndCalled := true, alerted := true }
        else if response.fled then
          { state := { s1 with actionLoading := false },
            onCombatEndCalled := true, alerted := true }
        else
          { state := { s1 with actionLoading := false },
            onCombatEndCalled := false, alerted := false }
      else
        { state := { s1 with
            combatData := some response.toCombatData,
            selectedAbility := none,
            actionLoading := false },
          onCombatEndCalled := false, alerted := false }
  | .error err =>
      { state := { s with
          error := some ((err.detail).getD "Failed to perform action"),
          actionLoading := false },
        onCombatEndCalled := false, alerted := false }

end CombatView

/-- Sample player stats used to instantiate theorems on concrete inputs. -/
def pstats0 : PlayerStats :=
  ⟨10, 10, 5, 5, 7, 7, 1, 0, 100, ["Torch"]⟩

/-- Sample game data (a stored /game/start response). -/
def gdata0 : GameData :=
  ⟨some "sess-1", "You wake in a dark forest.", ["Look around"], pstats0, none, none⟩

/-- Sample game-over action response. -/
def aresp0 : ActionResponse :=
  ⟨true, "You died.", some pstats0, "The end.", [], pstats0, 3, "failure"⟩

/-- Sample GameScreen local state. -/
def gsState0 : GameScreenState := ⟨gdata0, false, none⟩

/-- Sample /game/start response. -/
def sgresp0 : StartGameResponse :=
  ⟨"sess-1", "You wake in a dark forest.", ["Look around"], pstats0⟩

/-- Sample 4xx business error carrying a detail message. -/
def err400 : ApiError := ⟨some ⟨400, ⟨some "Name is required"⟩⟩⟩

/-- Sample combat player stats. -/
def cpstats0 : CombatPlayerStats := ⟨12, 12, 6, 6, 8, 8, []⟩

/-- Sample enemy. -/
def enemy0 : Enemy := ⟨"Goblin", 1, "beast", false, 6, 6, []⟩

/-- Sample combat snapshot. -/
def cdata0 : CombatData := ⟨true, ["You", "Goblin"], cpstats0, [enemy0], []⟩

/-- Sample rewards object. -/
def rewards0 : Rewards := ⟨10, 5, [], false, 1⟩

/-- Sample CombatView local state. -/
def cvState0 : CombatViewState := ⟨some cdata0, false, false, 0, none, none, none⟩

/-- Sample App state during normal (non-combat) play. -/
def appInGame : AppState := ⟨true, some "sess-1", some gdata0, false, none, false⟩

/-- Sample App state during combat. -/
def appInCombat : AppState := ⟨true, some "sess-1", some gdata0, false, none, true⟩

/-- C1: an action response with game_over set makes the GameScreen action
handler navigate to the landing route '/' (which renders the landing page
in every app state) without applying the response's scene/stats update to
the game data. -/
theorem C1_game_over_returns_to_landing (s : GameScreenState)
    (response : ActionResponse) (h : response.game_over = true) :
    (GameScreen.handleAction s (.ok response)).navigatedTo = some "/" ∧
    (GameScreen.handleAction s (.ok response)).state.gameData = s.gameData ∧
    App.renderRoute appInGame .root = Screen.landing := by
  refine ⟨?_, ?_, rfl⟩ <;> simp [GameScreen.handleAction, h]

/-- C1 witness: the game-over behaviour evaluated on a concrete state and
response. -/
theorem C1_witness :
    (GameScreen.handleAction gsState0 (.ok aresp0)).navigatedTo = some "/" ∧
    (GameScreen.handleAction gsState0 (.ok aresp0)).state.gameData = gsState0.gameData ∧
    App.renderRoute appInGame .root = Screen.landing :=
  C1_game_over_returns_to_landing gsState0 aresp0 rfl

/-- C3: submitting character creation with a name that is non-empty after
trimming invokes onStartGame with the trimmed payload; a successful start
stores the returned session_id, sets gameStarted, and the
character-creation route then navigates to the game screen. -/
theorem C3_nonempty_name_starts_game (playerName characterClass setting : String)
    (h : jsTrim playerName ≠ "") :
    CharacterCreation.handleSubmit playerName characterClass setting
      = some ⟨jsTrim playerName, characterClass, setting⟩ ∧
    ∀ (app : AppState) (response : StartGameResponse),
      (App.handleStartGame app (.ok response)).sessionId = some response.session_id ∧
      (App.handleStartGame app (.ok response)).gameStarted = true ∧
      App.renderRoute (App.handleStartGame app (.ok response)) .createCharacter
        = Screen.navigate "/game" := by
  refine ⟨?_, fun app response => ⟨rfl, rfl, rfl⟩⟩
  simp [CharacterCreation.handleSubmit, h]

/-- C3 witness: a concrete submission and start response. -/
theorem C3_witness :
    CharacterCreation.handleSubmit "Ari" "Mage" "Mystical Enchanted Forest"
      = some ⟨"Ari", "Mage", "Mystical Enchanted Forest"⟩ ∧
    (App.handleStartGame initialAppState (.ok sgresp0)).sessionId = some sgresp0.session_id ∧
    (App.handleStartGame initialAppState (.ok sgresp0)).gameStarted = true ∧
    App.renderRoute (App.handleStartGame initialAppState (.ok sgresp0)) .createCharacter
      = Screen.navigate "/game" := by
  have T := C3_nonempty_name_starts_game "Ari" "Mage" "Mystical Enchanted Forest" (by decide)
  exact ⟨T.1, T.2 initialAppState sgresp0⟩

/-- C4: submitting with an empty or whitespace-only name does not invoke
onStartGame (so no start-game HTTP request is issued), and the submit
button is disabled. -/
theorem C4_blank_name_no_call (playerName characterClass setting : String)
    (h : jsTrim playerName = "") :
    CharacterCreation.handleSubmit playerName characterClass setting = none ∧
    CharacterCreation.submitDisabled playerName = true := by
  constructor
  · simp [CharacterCreation.handleSubmit, h]
  · simp [CharacterCreation.submitDisabled, h]

/-- C4 witness: a whitespace-only name evaluated concretely. -/
theorem C4_witness :
    CharacterCreation.handleSubmit "   " "Warrior" "Dark Fantasy Medieval Kingdom" = none ∧
    CharacterCreation.submitDisabled "   " = true :=
  C4_blank_name_no_call "   " "Warrior" "Dark Fantasy Medieval Kingdom" (by decide)

/-- C5: a failed start-game call leaves gameStarted false and
sessionId/gameData at null, stores the error so the character-creation
route shows the error screen, and the retry action resets error,
gameStarted, sessionId, gameData and inCombat to the pre-game phase. -/
theorem C5_failed_start_shows_error_screen (s : AppState) (e : ApiError)
    (h1 : s.gameStarted = false) (h2 : s.sessionId = none) (h3 : s.gameData = none) :
    (App.handleStartGame s (.error e)).gameStarted = false ∧
    (App.handleStartGame s (.error e)).sessionId = none ∧
    (App.handleStartGame s (.error e)).gameData = none ∧
    (App.handleStartGame s (.error e)).error
      = some ⟨(e.detail).getD "Failed to connect to game server. Make sure your backend is running on http://localhost:8000"⟩ ∧
    App.renderRoute (App.handleStartGame s (.error e)) .createCharacter
      = Screen.errorScreen ⟨(e.detail).getD "Failed to connect to game server. Make sure your backend is running on http://localhost:8000"⟩ ∧
    ∀ t : AppState,
      (App.handleRetry t).error = none ∧
      (App.handleRetry t).gameStarted = false ∧
      (App.handleRetry t).sessionId = none ∧
      (App.handleRetry t).gameData = none ∧
      (App.handleRetry t).inCombat = false := by
  exact ⟨h1, h2, h3, rfl, rfl, fun t => ⟨rfl, rfl, rfl, rfl, rfl⟩⟩

/-- C5 witness: a concrete failed start from the initial state, and the
retry reset evaluated on a concrete mid-game state. -/
theorem C5_witness :
    (App.handleStartGame initialAppState (.error err400)).gameStarted = false ∧
    (App.handleStartGame initialAppState (.error err400)).sessionId = none ∧
    (App.handleStartGame initialAppState (.error err400)).gameData = none ∧
    (App.handleStartGame initialAppState (.error err400)).error
      = some ⟨(err400.detail).getD "Failed to connect to game server. Make sure your backend is running on http://localhost:8000"⟩ ∧
    App.renderRoute (App.handleStartGame initialAppState (.error err400)) .createCharacter
      = Screen.errorScreen ⟨(err400.detail).getD "Failed to connect to game server. Make sure your backend is running on http://localhost:8000"⟩ ∧
    (App.handleRetry appInCombat).error = none ∧
    (App.handleRetry appInCombat).gameStarted = false ∧
    (App.handleRetry appInCombat).sessionId = none ∧
    (App.handleRetry appInCombat).gameData = none ∧
    (App.handleRetry appInCombat).inCombat = false := by
  have T := C5_failed_start_shows_error_screen initialAppState err400 rfl rfl rfl
  exact ⟨T.1, T.2.1, T.2.2.1, T.2.2.2.1, T.2.2.2.2.1, T.2.2.2.2.2 appInCombat⟩

/-- Sample combat-action response: victory. -/
def carespVictory : CombatActionResponse :=
  { toCombatData := cdata0, combat_ended := true, victory := true,
    defeat := false, fled := false, rewards := rewards0 }

/-- Sample combat-action response: combat_ended with no outcome flag. -/
def carespNoFlag : CombatActionResponse :=
  { toCombatData := cdata0, combat_ended := true, victory := false,
    defeat := false, fled := false, rewards := rewards0 }

/-- C6: a combat-action response with combat_ended and one of victory,
defeat or fled makes the combat view call onCombatEnd; handleCombatEnd
clears inCombat, after which the combat route redirects back to the game
screen. -/
theorem C6_combat_end_exits_combat (cv : CombatViewState) (act : String)
    (response : CombatActionResponse)
    (h1 : response.combat_ended = true)
    (h2 : response.victory = true ∨ response.defeat = true ∨ response.fled = true) :
    (CombatView.handleCombatAction cv act (.ok response)).onCombatEndCalled = true ∧
    (∀ a : AppState, (App.handleCombatEnd a).inCombat = false) ∧
    (∀ a : AppState, a.gameStarted = true → a.sessionId.isSome = true →
      App.renderRoute (App.handleCombatEnd a) .combat = Screen.navigate "/game") := by
  refine ⟨?_, fun a => rfl, fun a hg hs => ?_⟩
  · rcases h2 with h | h | h
    · simp [CombatView.handleCombatAction, h1, h]
    · cases hv : response.victory <;>
        simp [CombatView.handleCombatAction, h1, h, hv]
    · cases hv : response.victory <;> cases hd : response.defeat <;>
        simp [CombatView.handleCombatAction, h1, h, hv, hd]
  · rcases Option.isSome_iff_exists.mp hs with ⟨v, hv⟩
    simp [App.handleCombatEnd, App.renderRoute, hg, hv]

/-- C6 witness: a concrete victory response and in-combat app state. -/
theorem C6_witness :
    (CombatView.handleCombatAction cvState0 "attack" (.ok carespVictory)).onCombatEndCalled = true ∧
    (App.handleCombatEnd appInCombat).inCombat = false ∧
    App.renderRoute (App.handleCombatEnd appInCombat) .combat = Screen.navigate "/game" := by
  have T := C6_combat_end_exits_combat cvState0 "attack" carespVictory rfl (Or.inl rfl)
  exact ⟨T.1, T.2.1 appInCombat, T.2.2 appInCombat rfl rfl⟩

/-- C9: a combat-action response with combat_ended but none of victory,
defeat or fled set makes the handler return early: onCombatEnd is not
called and the stored combat data and ability selection are unchanged. -/
theorem C9_combat_ended_without_flags_is_noop (cv : CombatViewState) (act : String)
    (response : CombatActionResponse)
    (h1 : response.combat_ended = true) (h2 : response.victory = false)
    (h3 : response.defeat = false) (h4 : response.fled = false) :
    (CombatView.handleCombatAction cv act (.ok response)).onCombatEndCalled = false ∧
    (CombatView.handleCombatAction cv act (.ok response)).state.combatData = cv.combatData ∧
    (CombatView.handleCombatAction cv act (.ok response)).state.selectedAbility = cv.selectedAbility := by
  refine ⟨?_, ?_, ?_⟩ <;>
    simp [CombatView.handleCombatAction, h1, h2, h3, h4, apply_ite]

/-- C9 witness: a concrete flagless combat_ended response. -/
theorem C9_witness :
    (CombatView.handleCombatAction cvState0 "defend" (.ok carespNoFlag)).onCombatEndCalled = false ∧
    (CombatView.handleCombatAction cvState0 "defend" (.ok carespNoFlag)).state.combatData = cvState0.combatData ∧
    (CombatView.handleCombatAction cvState0 "defend" (.ok carespNoFlag)).state.selectedAbility = cvState0.selectedAbility :=
  C9_combat_ended_without_flags_is_noop cvState0 "defend" carespNoFlag rfl rfl rfl rfl

/-- C2 counterexample: a 4xx start-game error with a detail message is not
shown inline on the character-creation screen; instead the route renders
the generic full error screen in its place. -/
theorem C2_counterexample :
    err400.response = some ⟨400, ⟨some "Name is required"⟩⟩ ∧
    App.renderRoute (App.handleStartGame initialAppState (.error err400)) .createCharacter
      = Screen.errorScreen ⟨"Name is required"⟩ ∧
    App.renderRoute (App.handleStartGame initialAppState (.error err400)) .createCharacter
      ≠ Screen.characterCreation := by
  refine ⟨rfl, rfl, fun h => ?_⟩
  rw [show App.renderRoute (App.handleStartGame initialAppState (.error err400)) .createCharacter
      = Screen.errorScreen ⟨"Name is required"⟩ from rfl] at h
  exact Screen.noConfusion h

/-- C2 (amended): a server business error (4xx with detail) from takeAction
or a combat action is shown inline on the current screen without touching
the stored game/combat data; a business error from the start-game call is
instead rendered as the generic error screen on the character-creation
route, while sessionId, gameData and gameStarted are still unchanged. -/
theorem C2_business_errors_amended (e : ApiError) (r : ErrorResponse) (d : String)
    (hr : e.response = some r) (_h4 : 400 ≤ r.status) (_h5 : r.status < 500)
    (hd : r.data.detail = some d) :
    (∀ gs : GameScreenState,
      (GameScreen.handleAction gs (.error e)).state.error = some d ∧
      (GameScreen.handleAction gs (.error e)).state.gameData = gs.gameData ∧
      (GameScreen.handleAction gs (.error e)).navigatedTo = none) ∧
    (∀ (cv : CombatViewState) (act : String),
      (CombatView.handleCombatAction cv act (.error e)).state.error = some d ∧
      (CombatView.handleCombatAction cv act (.error e)).state.combatData = cv.combatData ∧
      (CombatView.handleCombatAction cv act (.error e)).onCombatEndCalled = false) ∧
    (∀ app : AppState,
      (App.handleStartGame app (.error e)).sessionId = app.sessionId ∧
      (App.handleStartGame app (.error e)).gameData = app.gameData ∧
      (App.handleStartGame app (.error e)).gameStarted = app.gameStarted ∧
      (App.handleStartGame app (.error e)).error = some ⟨d⟩ ∧
      App.renderRoute (App.handleStartGame app (.error e)) .createCharacter
        = Screen.errorScreen ⟨d⟩) := by
  have hdet : e.detail = some d := by simp [ApiError.detail, hr, hd]
  refine ⟨fun gs => ⟨?_, rfl, rfl⟩, fun cv act => ⟨?_, rfl, rfl⟩,
    fun app => ⟨rfl, rfl, rfl, ?_, ?_⟩⟩
  · simp [GameScreen.handleAction, hdet]
  · simp [CombatView.handleCombatAction, hdet]
  · simp [App.handleStartGame, hdet]
  · simp [App.handleStartGame, App.renderRoute, hdet]

/-- C2 witness: the amended behaviour evaluated on the concrete 4xx error
and concrete screen states. -/
theorem C2_witness :
    (GameScreen.handleAction gsState0 (.error err400)).state.error = some "Name is required" ∧
    (CombatView.handleCombatAction cvState0 "attack" (.error err400)).state.combatData = cvState0.combatData ∧
    (App.handleStartGame initialAppState (.error err400)).error = some ⟨"Name is required"⟩ := by
  have T := C2_business_errors_amended err400 ⟨400, ⟨some "Name is required"⟩⟩
    "Name is required" rfl (by decide) (by decide) rfl
  exact ⟨(T.1 gsState0).1, (T.2.1 cvState0 "attack").2.1, (T.2.2 initialAppState).2.2.2.1⟩

/-- C7: every gameApi function applies the transport to its request and
propagates the outcome upward: on a success it returns the response data,
on a failure it rethrows the very error, for every input. -/
theorem C7_gameApi_propagates {α : Type}
    (send : Request → Except ApiError (Response α)) :
    (∀ playerName characterClass setting,
      (∀ r, send (gameApi.startGameRequest playerName characterClass setting) = .ok r →
        gameApi.startGame send playerName characterClass setting = .ok r.data) ∧
      (∀ e, send (gameApi.startGameRequest playerName characterClass setting) = .error e →
        gameApi.startGame send playerName characterClass setting = .error e)) ∧
    (∀ sessionId action,
      (∀ r, send (gameApi.takeActionRequest sessionId action) = .ok r →
        gameApi.takeAction send sessionId action = .ok r.data) ∧
      (∀ e, send (gameApi.takeActionRequest sessionId action) = .error e →
        gameApi.takeAction send sessionId action = .error e)) ∧
    (∀ sessionId,
      (∀ r, send (gameApi.getGameStateRequest sessionId) = .ok r →
        gameApi.getGameState send sessionId = .ok r.data) ∧
      (∀ e, send (gameApi.getGameStateRequest sessionId) = .error e →
        gameApi.getGameState send sessionId = .error e)) ∧
    (∀ sessionId,
      (∀ r, send (gameApi.getCharacterSheetRequest sessionId) = .ok r →
        gameApi.getCharacterSheet send sessionId = .ok r.data) ∧
      (∀ e, send (gameApi.getCharacterSheetRequest sessionId) = .error e →
        gameApi.getCharacterSheet send sessionId = .error e)) ∧
    (∀ sessionId attribute_,
      (∀ r, send (gameApi.spendAttributePointRequest sessionId attribute_) = .ok r →
        gameApi.spendAttributePoint send sessionId attribute_ = .ok r.data) ∧
      (∀ e, send (gameApi.spendAttributePointRequest sessionId attribute_) = .error e →
        gameApi.spendAttributePoint send sessionId attribute_ = .error e)) ∧
    (∀ sessionId,
      (∀ r, send (gameApi.endGameRequest sessionId) = .ok r →
        gameApi.endGame send sessionId = .ok r.data) ∧
      (∀ e, send (gameApi.endGameRequest sessionId) = .error e →
        gameApi.endGame send sessionId = .error e)) ∧
    (∀ sessionId enemyType enemyLevel enemyCount,
      (∀ r, send (gameApi.startCombatRequest sessionId enemyType enemyLevel enemyCount) = .ok r →
        gameApi.startCombat send sessionId enemyType enemyLevel enemyCount = .ok r.data) ∧
      (∀ e, send (gameApi.startCombatRequest sessionId enemyType enemyLevel enemyCount) = .error e →
        gameApi.startCombat send sessionId enemyType enemyLevel enemyCount = .error e)) ∧
    (∀ sessionId actionType targetIndex abilityName itemName,
      (∀ r, send (gameApi.performCombatActionRequest sessionId actionType targetIndex abilityName itemName) = .ok r →
        gameApi.performCombatAction send sessionId actionType targetIndex abilityName itemName = .ok r.data) ∧
      (∀ e, send (gameApi.performCombatActionRequest sessionId actionType targetIndex abilityName itemName) = .error e →
        gameApi.performCombatAction send sessionId actionType targetIndex abilityName itemName = .error e)) ∧
    (∀ sessionId,
      (∀ r, send (gameApi.getCombatStatusRequest sessionId) = .ok r →
        gameApi.getCombatStatus send sessionId = .ok r.data) ∧
      (∀ e, send (gameApi.getCombatStatusRequest sessionId) = .error e →
        gameApi.getCombatStatus send sessionId = .error e)) ∧
    (∀ sessionId,
      (∀ r, send (gameApi.endCombatRequest sessionId) = .ok r →
        gameApi.endCombat send sessionId = .ok r.data) ∧
      (∀ e, send (gameApi.endCombatRequest sessionId) = .error e →
        gameApi.endCombat send sessionId = .error e)) := by
  refine ⟨?_, ?_, ?_, ?_, ?_, ?_, ?_, ?_, ?_, ?_⟩ <;>
    · intros
      constructor
      · intro r h
        simp [gameApi.startGame, gameApi.takeAction, gameApi.getGameState,
          gameApi.getCharacterSheet, gameApi.spendAttributePoint, gameApi.endGame,
          gameApi.startCombat, gameApi.performCombatAction, gameApi.getCombatStatus,
          gameApi.endCombat, gameApi.startGameRequest, gameApi.takeActionRequest,
          gameApi.getGameStateRequest, gameApi.getCharacterSheetRequest,
          gameApi.spendAttributePointRequest, gameApi.endGameRequest,
          gameApi.startCombatRequest, gameApi.performCombatActionRequest,
          gameApi.getCombatStatusRequest, gameApi.endCombatRequest] at h ⊢
        rw [h]
      · intro e h
        simp [gameApi.startGame, gameApi.takeAction, gameApi.getGameState,
          gameApi.getCharacterSheet, gameApi.spendAttributePoint, gameApi.endGame,
          gameApi.startCombat, gameApi.performCombatAction, gameApi.getCombatStatus,
          gameApi.endCombat, gameApi.startGameRequest, gameApi.takeActionRequest,
          gameApi.getGameStateRequest, gameApi.getCharacterSheetRequest,
          gameApi.spendAttributePointRequest, gameApi.endGameRequest,
          gameApi.startCombatRequest, gameApi.performCombatActionRequest,
          gameApi.getCombatStatusRequest, gameApi.endCombatRequest] at h ⊢
        rw [h]

/-- A transport that always fails, for evaluating the propagation claims. -/
def sendFail : Request → Except ApiError (Response Unit) :=
  fun _ => .error err400

/-- A transport that always succeeds with data 7. -/
def sendOk : Request → Except ApiError (Response Nat) :=
  fun _ => .ok ⟨7⟩

/-- C7 witness: a failing and a succeeding transport evaluated on concrete
calls. -/
theorem C7_witness :
    gameApi.startGame sendFail "Ari" "Mage" "Mystical Enchanted Forest" = .error err400 ∧
    gameApi.takeAction sendOk "sess-1" "Look around" = .ok 7 := by
  refine ⟨((C7_gameApi_propagates sendFail).1 "Ari" "Mage" "Mystical Enchanted Forest").2 err400 rfl, ?_⟩
  exact ((C7_gameApi_propagates sendOk).2.1 "sess-1" "Look around").1 ⟨7⟩ rfl

/-- C8: startGame issues a POST to /game/start whose body is exactly the
player_name/character_class/setting object, its result is exactly the
transport's response mapped to its data, and on success the app stores the
response's session_id and its current_scene/available_actions/player_stats
as the game data. -/
theorem C8_start_game_interface (playerName characterClass setting : String) :
    gameApi.startGameRequest playerName characterClass setting
      = { method := .post, path := "/game/start",
          body := .startGame playerName characterClass setting } ∧
    (∀ (α : Type) (send : Request → Except ApiError (Response α)),
      gameApi.startGame send playerName characterClass setting
        = (send (gameApi.startGameRequest playerName characterClass setting)).map Response.data) ∧
    (∀ (app : AppState) (response : StartGameResponse),
      (App.handleStartGame app (.ok response)).sessionId = some response.session_id ∧
      (App.handleStartGame app (.ok response)).gameData
        = some { session_id := some response.session_id,
                 current_scene := response.current_scene,
                 available_actions := response.available_actions,
                 player_stats := response.player_stats,
                 dice_roll := none, outcome := none }) := by
  refine ⟨rfl, fun α send => ?_, fun app response => ⟨rfl, rfl⟩⟩
  cases h : send (gameApi.startGameRequest playerName characterClass setting) <;>
    simp [gameApi.startGame, gameApi.startGameRequest, Except.map] at h ⊢ <;>
    rw [h]

/-- Whether a rendered element is the combat screen component. -/
def isCombatScreen : Screen → Bool
  | .combat _ => true
  | _ => false

/-- Whether a rendered element is the game screen component. -/
def isGameScreen : Screen → Bool
  | .game _ _ => true
  | _ => false

/-- C10: the combat screen is rendered exactly when gameStarted, a
session id and inCombat all hold, the game screen exactly when gameStarted
and a session id hold and inCombat does not; these screens appear only on
their own routes, and a state violating the conditions redirects to
character creation or between game and combat. -/
theorem C10_routing_invariant (s : AppState) :
    (isCombatScreen (App.renderRoute s .combat)
      = (s.gameStarted && s.sessionId.isSome && s.inCombat)) ∧
    (isGameScreen (App.renderRoute s .game)
      = (s.gameStarted && s.sessionId.isSome && !s.inCombat)) ∧
    (∀ r, isCombatScreen (App.renderRoute s r) = true → r = Route.combat) ∧
    (∀ r, isGameScreen (App.renderRoute s r) = true → r = Route.game) ∧
    ((!s.gameStarted || s.sessionId.isNone) = true →
      App.renderRoute s .combat = Screen.navigate "/create-character" ∧
      App.renderRoute s .game = Screen.navigate "/create-character") ∧
    (s.gameStarted = true → s.sessionId.isSome = true → s.inCombat = false →
      App.renderRoute s .combat = Screen.navigate "/game") ∧
    (s.gameStarted = true → s.sessionId.isSome = true → s.inCombat = true →
      App.renderRoute s .game = Screen.navigate "/combat") := by
  refine ⟨?_, ?_, ?_, ?_, fun h => ?_, fun hg hs hc => ?_, fun hg hs hc => ?_⟩
  · cases hgs : s.gameStarted <;> rcases hsid : s.sessionId with _ | v <;>
      cases hic : s.inCombat <;>
      simp [App.renderRoute, isCombatScreen, hgs, hsid, hic]
  · cases hgs : s.gameStarted <;> rcases hsid : s.sessionId with _ | v <;>
      cases hic : s.inCombat <;>
      simp [App.renderRoute, isGameScreen, hgs, hsid, hic]
  · intro r hr
    cases r with
    | combat => rfl
    | root => simp [App.renderRoute, isCombatScreen] at hr
    | createCharacter =>
        revert hr
        simp only [App.renderRoute]
        repeat' split
        all_goals simp [isCombatScreen]
    | game =>
        revert hr
        simp only [App.renderRoute]
        repeat' split
        all_goals simp [isCombatScreen]
    | other p => simp [App.renderRoute, isCombatScreen] at hr
  · intro r hr
    cases r with
    | game => rfl
    | root => simp [App.renderRoute, isGameScreen] at hr
    | createCharacter =>
        revert hr
        simp only [App.renderRoute]
        repeat' split
        all_goals simp [isGameScreen]
    | combat =>
        revert hr
        simp only [App.renderRoute]
        repeat' split
        all_goals simp [isGameScreen]
    | other p => simp [App.renderRoute, isGameScreen] at hr
  · constructor <;> simp [App.renderRoute, h]
  · rcases Option.isSome_iff_exists.mp hs with ⟨v, hv⟩
    simp [App.renderRoute, hg, hv, hc]
  · rcases Option.isSome_iff_exists.mp hs with ⟨v, hv⟩
    simp [App.renderRoute, hg, hv, hc]

/-- C10 witness: the redirects evaluated on concrete states (not started,
started outside combat, started in combat). -/
theorem C10_witness :
    App.renderRoute initialAppState .combat = Screen.navigate "/create-character" ∧
    App.renderRoute appInGame .combat = Screen.navigate "/game" ∧
    App.renderRoute appInCombat .game = Screen.navigate "/combat" := by
  have T1 := C10_routing_invariant initialAppState
  have T2 := C10_routing_invariant appInGame
  have T3 := C10_routing_invariant appInCombat
  exact ⟨(T1.2.2.2.2.1 rfl).1, T2.2.2.2.2.2.1 rfl rfl rfl, T3.2.2.2.2.2.2 rfl rfl rfl⟩
